import Mathlib

/-!
Verification of the issue-tracker repository's two core components:
the submission-ID allocator (`src/lib/submissions.ts`, `generateSubmissionId`)
and the loan-issue decision-tree classifier
(`src/pages/LoanIssueFormPage.tsx`, `processLoanIssueDecisionTree`).
The TypeScript is shallowly embedded: strings are Lean `String`s, the
JavaScript string helpers (`includes`, `toLowerCase`, `padStart`) are given
explicit list-based definitions, and the Firestore counter document becomes
an explicit state value threaded through the allocator.
-/

namespace IssueTracker

/-- JavaScript list-prefix test: `strStarts pat l` is true when `pat` is an
initial segment of `l` (character-wise equality). -/
def strStarts : List Char → List Char → Bool
  | [], _ => true
  | _ :: _, [] => false
  | p :: ps, c :: cs => p == c && strStarts ps cs

/-- Substring occurrence on character lists: true when `pat` occurs
contiguously inside `l`. -/
def strHas (pat : List Char) : List Char → Bool
  | [] => pat.isEmpty
  | c :: cs => strStarts pat (c :: cs) || strHas pat cs

/-- Embedding of JavaScript `s.includes(pat)`. -/
def includesStr (s pat : String) : Bool :=
  strHas pat.data s.data

/-- Embedding of JavaScript `s.toLowerCase()` (character-wise lowering; the
inputs of interest are ASCII). -/
def toLowerStr (s : String) : String :=
  ⟨s.data.map Char.toLower⟩

/-- Embedding of JavaScript `s.padStart(n, c)`: left-pad `s` with `c` up to a
minimum length `n`; a string already of length `≥ n` is returned unchanged. -/
def padStart (s : String) (n : Nat) (c : Char) : String :=
  ⟨List.replicate (n - s.data.length) c ++ s.data⟩

/-- `endsWithStr s suf` is true when `suf` is a final segment of `s`. -/
def endsWithStr (s suf : String) : Bool :=
  strStarts suf.data.reverse s.data.reverse

/-- The audit annotation appended by the classifier's override check: the
template literal `(Overridden from requested: ...)` of
`LoanIssueFormPage.tsx` line 117. -/
def overrideSuffix (a : String) : String :=
  " (Overridden from requested: " ++ a ++ ")"

/-! ## The submission-ID allocator (`src/lib/submissions.ts`, lines 23–41) -/

/-- The state of the Firestore document `counters/SUBMISSION_COUNTER`:
`none` when the document does not exist, `some f` when it exists with `f`
the optional numeric `value` field. -/
abbrev CounterState := Option (Option Nat)

/-- The read performed inside the transaction: `currentValue = 0`, replaced
by `counterDoc.data().value || 0` when the document exists (an absent or
zero field reads as 0). -/
def readCounter : CounterState → Nat
  | none => 0
  | some f => f.getD 0

/-- The template literal of line 37: `SUB-` followed by the decimal rendering
of `k` left-padded with `0` to a minimum width of 4. -/
def renderSubmissionId (k : Nat) : String :=
  "SUB-" ++ padStart (Nat.repr k) 4 '0'

/-- The body of the `runTransaction` callback of `generateSubmissionId`:
read the current value (default 0), write `value + 1` back, and return both
the allocated integer and its rendered ID. -/
def generateSubmissionId (s : CounterState) : CounterState × Nat × String :=
  let currentValue := readCounter s
  let nextValue := currentValue + 1
  (some (some nextValue), nextValue, renderSubmissionId nextValue)

/-- One call to `allocate()`: the flag records whether the atomic Firestore
transaction committed. A committed transaction applies
`generateSubmissionId` and yields `some` allocated integer; a failed
transaction aborts — by Firestore `runTransaction` atomicity it leaves the
counter document untouched — and the call raises, yielding `none`. -/
def allocateCall (s : CounterState) (ok : Bool) : CounterState × Option Nat :=
  if ok then
    let r := generateSubmissionId s
    (r.1, some r.2.1)
  else
    (s, none)

/-- A sequence of `allocate()` calls with the given success flags, returning
the final counter state and the list of integers of the successful calls in
order. -/
def runAllocSeq (s : CounterState) : List Bool → CounterState × List Nat
  | [] => (s, [])
  | ok :: rest =>
    let step := allocateCall s ok
    let r := runAllocSeq step.1 rest
    (r.1, step.2.toList ++ r.2)

/-! ## The decision-tree classifier (`src/pages/LoanIssueFormPage.tsx`) -/

/-- The fields of `LoanIssueFormData` (`src/types/index.ts`) consumed by
`processLoanIssueDecisionTree`; `subIssue` and `notes` are the interface's
optional fields. -/
structure LoanIssueFormData where
  issueType : String
  subIssue : Option String
  actionRequested : String
  notes : Option String
deriving DecidableEq

/-- The classifier's return object. -/
structure DecisionResult where
  recommendedAction : String
  reason : String
  nextSteps : List String
deriving DecidableEq

/-- The `issueType` dropdown options (`ISSUE_TYPE_OPTIONS`,
`LoanIssueFormPage.tsx` lines 11–22). -/
def ISSUE_TYPE_OPTIONS : List String :=
  ["Pan Issue (e.g., mapping error, verification failed, primary PAN available)",
   "Swapping (e.g., reassign applicant to co-applicant or vice versa)",
   "Wrong Details Updated by SM (e.g., phone no, income, property type wrong)",
   "System Issue UI (e.g., form not accessible, data not saving)",
   "Link Expired (e.g., Account Aggregator, IMD link)",
   "Relogin Request (e.g., fresh CIBIL pull needed)",
   "Old Case (e.g., reject to re-login with fresh data)",
   "Not Interested in Further Loan Process",
   "BT/Topup Case Error (e.g., wrong loan type selected)",
   "Other (free-text fallback)"]

/-- The if/else cascade of lines 62–113 of `processLoanIssueDecisionTree`,
taking the already-defaulted `subIssue` and already-lowercased `notes`, and
returning `(recommendedAction, reason, nextSteps)` before the override
check. -/
def decisionBranches (issueType subIssue notes : String) :
    String × String × List String :=
  if includesStr issueType "Pan Issue" then
    ((if subIssue == "Primary PAN Available" || includesStr notes "primary" then
        "Reject Lead (full or entity-specific)"
      else
        "Resolve Mapping (e.g., provide full phone no)"),
     "PAN verification or mapping failure detected. Common in data (e.g., primary PAN available).",
     ["Relogin with correct mobile no linked to PAN.",
      "API Call: Check PAN mapping in database (e.g., query for full phone no)."])
  else if includesStr issueType "Swapping" then
    ("Reject Lead (full or entity-specific)",
     "Role swap required (applicant ↔ co-applicant). Frequent in data for adding to another lead.",
     ["Add entity to target lead as opposite of current entity.",
      "API Call: Update LSQ opportunity with new structure."])
  else if includesStr issueType "Wrong Details Updated by SM" then
    ("Reopen Task (e.g., KYC, Loan & Property Details, Income Details)",
     "SM error (e.g., wrong phone, income, property). Reopen affected task.",
     (if includesStr notes "income" then
        ["Change income Yes/No via backend update."]
      else []) ++
     ["API Call: Reopen specific task (e.g., Loan & Property Details)."])
  else if includesStr issueType "System Issue UI" then
    ((if includesStr notes "resolved" then
        "No Action (resolve as is)"
      else
        "Reject Lead (full or entity-specific)"),
     "UI error (e.g., form not accessible). Check for intermittent issues.",
     ["Instruct SM to clear cache/relogin.",
      "Escalate to tech if persistent (log error screenshot)."])
  else if includesStr issueType "Link Expired" then
    ("Generate New Link (e.g., AA, IMD)",
     "AA/IMD link expired. Common timeout issue in data.",
     ["API Call: Regenerate link and send to user."])
  else if includesStr issueType "Relogin Request" || includesStr issueType "Old Case" then
    ("Reject Lead (full or entity-specific)",
     "Old/duplicate case; relogin for fresh CIBIL.",
     ["API Call: Pull fresh CIBIL report after reject."])
  else if includesStr issueType "Not Interested" then
    ("Reject Lead (full or entity-specific)",
     "Customer disinterest.",
     ["Mark as closed in CRM."])
  else if includesStr issueType "BT/Topup Case Error" then
    ("Reopen Task (e.g., KYC, Loan & Property Details, Income Details)",
     "Wrong loan type (BT/Topup vs. fresh).",
     ["Update loan type and resubmit."])
  else
    ("Manual Review",
     "Unclassified issue.",
     ["Escalate to support team."])

/-- `processLoanIssueDecisionTree` (lines 53–125): default the optional
fields, lowercase the notes, run the branch cascade, then apply the
override check for audit. -/
def processLoanIssueDecisionTree (formData : LoanIssueFormData) : DecisionResult :=
  let issueType := formData.issueType
  let subIssue := formData.subIssue.getD ""
  let notes := toLowerStr (formData.notes.getD "")
  let b := decisionBranches issueType subIssue notes
  let recommendedAction := b.1
  let reason :=
    if formData.actionRequested ≠ recommendedAction then
      b.2.1 ++ overrideSuffix formData.actionRequested
    else
      b.2.1
  { recommendedAction := recommendedAction, reason := reason, nextSteps := b.2.2 }

/-- The nine branch predicates of the cascade, in source order, as a vector
of Booleans determined by `issueType`. -/
def branchPreds (issueType : String) : List Bool :=
  [includesStr issueType "Pan Issue",
   includesStr issueType "Swapping",
   includesStr issueType "Wrong Details Updated by SM",
   includesStr issueType "System Issue UI",
   includesStr issueType "Link Expired",
   includesStr issueType "Relogin Request",
   includesStr issueType "Old Case",
   includesStr issueType "Not Interested",
   includesStr issueType "BT/Topup Case Error"]

/-! ## Helper lemmas -/

theorem str_data_append (s t : String) : (s ++ t).data = s.data ++ t.data := by
  cases s; cases t; rfl

/-- Along any sequence of calls, the value read from the resulting counter
state, consed in front of the successfully allocated values, is strictly
increasing. -/
theorem runAllocSeq_chain (flags : List Bool) :
    ∀ s : CounterState,
      List.Chain' (· < ·) (readCounter s :: (runAllocSeq s flags).2) := by
  induction flags with
  | nil => intro s; simp [runAllocSeq]
  | cons ok rest ih =>
    intro s
    cases ok with
    | false => simpa [runAllocSeq, allocateCall] using ih s
    | true =>
      have h := ih (some (some (readCounter s + 1)))
      simp only [readCounter, Option.getD_some] at h
      simp only [runAllocSeq, allocateCall, generateSubmissionId, if_pos,
        Option.toList_some, List.singleton_append, List.chain'_cons]
      exact ⟨Nat.lt_succ_self _, h⟩

/-- An all-successful run of `n` calls allocates the `n` consecutive
integers following the starting counter value. -/
theorem runAllocSeq_replicate_true (n : Nat) :
    ∀ s : CounterState,
      (runAllocSeq s (List.replicate n true)).2
        = List.range' (readCounter s + 1) n := by
  induction n with
  | zero => intro s; simp [runAllocSeq]
  | succ n ih =>
    intro s
    rw [List.replicate_succ, List.range'_succ]
    have h : readCounter (some (some (readCounter s + 1))) = readCounter s + 1 := rfl
    simp [runAllocSeq, allocateCall, generateSubmissionId, ih, h]

/-! ## Allocator claims -/

/-- Claim C1: modelling `generateSubmissionId` as a step on the counter
state, any sequence of `allocate()` calls yields successful return values
that are strictly increasing with no duplicates (so no allocated value is
ever reused), and an all-successful run of `n` calls yields the gap-free
consecutive range starting just above the current counter value. -/
theorem claim_C1_allocator_monotone (s : CounterState) (flags : List Bool) (n : Nat) :
    List.Chain' (· < ·) (runAllocSeq s flags).2
    ∧ (runAllocSeq s flags).2.Nodup
    ∧ (runAllocSeq s (List.replicate n true)).2 = List.range' (readCounter s + 1) n := by
  refine ⟨(runAllocSeq_chain flags s).tail, ?_, runAllocSeq_replicate_true n s⟩
  exact List.Pairwise.imp Nat.ne_of_lt
    (List.chain'_iff_pairwise.mp ((runAllocSeq_chain flags s).tail))

/-- Claim C2: a failed `allocate()` call allocates no ID (`none`) and leaves
the counter state unchanged, and retrying after the failure behaves exactly
like the original call would have — no duplicate and no skipped ID. -/
theorem claim_C2_failed_allocation_atomic (s : CounterState) :
    allocateCall s false = (s, none)
    ∧ allocateCall (allocateCall s false).1 true = allocateCall s true :=
  ⟨rfl, rfl⟩

/-- Claim C8: against an absent counter document, or one whose `value` field
is absent, the transaction reads 0, writes 1 and returns `SUB-0001`; the
first successful call therefore allocates the integer 1. -/
theorem claim_C8_initial_value :
    generateSubmissionId none = (some (some 1), 1, "SUB-0001")
    ∧ generateSubmissionId (some none) = (some (some 1), 1, "SUB-0001")
    ∧ (runAllocSeq none [true]).2 = [1] := by
  decide

/-- Claim C9: the allocator renders a positive integer `k` as `SUB-`
followed by `k`'s decimal digits zero-padded to a minimum width of 4: the
rendered characters are exactly the padding then the digits, values of 4 or
more digits are never truncated, the total length is `4 + max 4 digits`,
and in particular 1 renders as `SUB-0001` and 12345 as `SUB-12345`. -/
theorem claim_C9_id_formatting (k : Nat) (_hk : 0 < k) :
    (renderSubmissionId k).data
      = "SUB-".data ++ (List.replicate (4 - (Nat.repr k).length) '0' ++ (Nat.repr k).data)
    ∧ (4 ≤ (Nat.repr k).length → renderSubmissionId k = "SUB-" ++ Nat.repr k)
    ∧ (renderSubmissionId k).length = 4 + max 4 (Nat.repr k).length
    ∧ renderSubmissionId 1 = "SUB-0001"
    ∧ renderSubmissionId 12345 = "SUB-12345" := by
  refine ⟨?_, ?_, ?_, by decide, by decide⟩
  · rw [renderSubmissionId, str_data_append]; rfl
  · intro h
    rw [renderSubmissionId]
    congr 1
    show (⟨List.replicate (4 - (Nat.repr k).data.length) '0' ++ (Nat.repr k).data⟩ : String)
      = Nat.repr k
    have h0 : 4 - (Nat.repr k).data.length = 0 := Nat.sub_eq_zero_of_le h
    rw [h0, List.replicate_zero, List.nil_append]
  · show (renderSubmissionId k).data.length = 4 + max 4 (Nat.repr k).data.length
    rw [renderSubmissionId, str_data_append]
    simp only [padStart, List.length_append, List.length_replicate]
    have h4 : "SUB-".data.length = 4 := by decide
    rw [h4]
    omega

/-- Witness for C9 at `k = 12345`. -/
theorem claim_C9_id_formatting_witness :
    (0 < 12345) ∧ renderSubmissionId 12345 = "SUB-12345" :=
  ⟨by decide, (claim_C9_id_formatting 12345 (by decide)).2.2.2.2⟩

/-! ## Classifier helper lemmas -/

theorem strStarts_prefix_self : ∀ (l m : List Char), strStarts l (l ++ m) = true
  | [], _ => rfl
  | c :: cs, m => by simp [strStarts, strStarts_prefix_self cs m]

theorem endsWithStr_append (x s : String) : endsWithStr (x ++ s) s = true := by
  rw [endsWithStr, str_data_append, List.reverse_append]
  exact strStarts_prefix_self s.data.reverse x.data.reverse

/-- A string whose last character is a full stop never ends with an override
annotation, whose last character is a closing parenthesis. -/
theorem endsWithStr_override_of_last_dot (s a : String)
    (h : s.data.reverse.head? = some ('.')) :
    endsWithStr s (overrideSuffix a) = false := by
  have hov : (overrideSuffix a).data.reverse
      = ')' :: (a.data.reverse ++ (" (Overridden from requested: ").data.reverse) := by
    rw [overrideSuffix, str_data_append, str_data_append,
      List.reverse_append, List.reverse_append]
    rfl
  obtain ⟨t, ht⟩ : ∃ t, s.data.reverse = ('.') :: t := by
    cases hs : s.data.reverse with
    | nil => rw [hs] at h; cases h
    | cons c t =>
      rw [hs] at h
      simp only [List.head?_cons, Option.some.injEq] at h
      exact ⟨t, by rw [h]⟩
  have hne : (')' == ('.')) = false := by decide
  rw [endsWithStr, hov, ht]
  simp [strStarts, hne]

/-- Every branch's fixed reason text ends in a full stop. -/
theorem branch_reason_last_dot (it si no : String) :
    ((decisionBranches it si no).2.1).data.reverse.head? = some ('.') := by
  unfold decisionBranches
  repeat' split
  all_goals decide

/-- Every branch pushes at least one and at most two next steps. -/
theorem branch_steps_bounds (it si no : String) :
    (decisionBranches it si no).2.2 ≠ [] ∧ (decisionBranches it si no).2.2.length ≤ 2 := by
  constructor
  · unfold decisionBranches
    repeat' split
    all_goals decide
  · unfold decisionBranches
    repeat' split
    all_goals decide

/-- The override post-processing step, specified for an arbitrary branch
result `b` whose reason ends in a full stop: the produced reason ends with
the override annotation exactly when the requested action `a` differs from
the computed one, and is the untouched branch reason when they agree. -/
theorem override_reason_spec (b : String × String × List String) (a : String)
    (hdot : b.2.1.data.reverse.head? = some ('.')) :
    (endsWithStr (if a ≠ b.1 then b.2.1 ++ overrideSuffix a else b.2.1)
        (overrideSuffix a) = true
      ↔ b.1 ≠ a)
    ∧ (b.1 = a → (if a ≠ b.1 then b.2.1 ++ overrideSuffix a else b.2.1) = b.2.1) := by
  by_cases h : a = b.1
  · subst h
    rw [if_neg (by simp)]
    have hf := endsWithStr_override_of_last_dot b.2.1 b.1 hdot
    constructor
    · simp [hf]
    · intro
      rfl
  · rw [if_pos h]
    refine ⟨?_, fun hc => absurd hc.symm h⟩
    have hne := Ne.symm h
    simp [endsWithStr_append, hne]

/-! ## Classifier claims -/

/-- Counterexample to claim C3 as stated: `"Something entirely
unrecognized"` matches none of the nine branch predicates, yet the returned
reason is not exactly `"Unclassified issue."` — the override annotation is
appended because the requested action (here `""`) differs from `"Manual
Review"`. -/
theorem claim_C3_counterexample :
    branchPreds "Something entirely unrecognized"
      = [false, false, false, false, false, false, false, false, false]
    ∧ (processLoanIssueDecisionTree
        ⟨"Something entirely unrecognized", none, "", none⟩).reason
      ≠ "Unclassified issue." := by
  decide

/-- Claim C3 (amended): the classifier is a total Lean function, so it never
fails; for every input whose `issueType` matches none of the enumerated
categories, the recommended action is `Manual Review` and the next steps
are `["Escalate to support team."]`, and the reason is `"Unclassified
issue."` — with the override annotation appended when the requested action
differs from `Manual Review`. -/
theorem claim_C3_catch_all (fd : LoanIssueFormData)
    (h : branchPreds fd.issueType
      = [false, false, false, false, false, false, false, false, false]) :
    (processLoanIssueDecisionTree fd).recommendedAction = "Manual Review"
    ∧ (processLoanIssueDecisionTree fd).nextSteps = ["Escalate to support team."]
    ∧ (processLoanIssueDecisionTree fd).reason
        = (if fd.actionRequested ≠ "Manual Review" then
             "Unclassified issue." ++ overrideSuffix fd.actionRequested
           else
             "Unclassified issue.") := by
  simp only [branchPreds, List.cons.injEq, and_true] at h
  obtain ⟨h1, h2, h3, h4, h5, h6, h7, h8, h9⟩ := h
  have hb : decisionBranches fd.issueType (fd.subIssue.getD "")
        (toLowerStr (fd.notes.getD ""))
      = ("Manual Review", "Unclassified issue.", ["Escalate to support team."]) := by
    simp [decisionBranches, h1, h2, h3, h4, h5, h6, h7, h8, h9]
  have hact : (processLoanIssueDecisionTree fd).recommendedAction
      = (decisionBranches fd.issueType (fd.subIssue.getD "")
          (toLowerStr (fd.notes.getD ""))).1 := rfl
  have hsteps : (processLoanIssueDecisionTree fd).nextSteps
      = (decisionBranches fd.issueType (fd.subIssue.getD "")
          (toLowerStr (fd.notes.getD ""))).2.2 := rfl
  have hreason : (processLoanIssueDecisionTree fd).reason
      = (if fd.actionRequested
            ≠ (decisionBranches fd.issueType (fd.subIssue.getD "")
                (toLowerStr (fd.notes.getD ""))).1 then
           (decisionBranches fd.issueType (fd.subIssue.getD "")
             (toLowerStr (fd.notes.getD ""))).2.1
             ++ overrideSuffix fd.actionRequested
         else
           (decisionBranches fd.issueType (fd.subIssue.getD "")
             (toLowerStr (fd.notes.getD ""))).2.1) := rfl
  rw [hact, hsteps, hreason, hb]
  exact ⟨rfl, rfl, rfl⟩

/-- Witness for C3 at a concrete unrecognized issue type whose requested
action is already `Manual Review`. -/
theorem claim_C3_catch_all_witness :
    (processLoanIssueDecisionTree
      ⟨"Something entirely unrecognized", none, "Manual Review", none⟩).recommendedAction
      = "Manual Review" :=
  (claim_C3_catch_all
    ⟨"Something entirely unrecognized", none, "Manual Review", none⟩ (by decide)).1

/-- Claim C4: two inputs agreeing on `issueType`, `subIssue` and `notes` but
possibly differing in `actionRequested` get the same recommended action and
the same next steps — `actionRequested` never influences the computed
recommendation. -/
theorem claim_C4_actionRequested_noninterference (x y : LoanIssueFormData)
    (h1 : x.issueType = y.issueType) (h2 : x.subIssue = y.subIssue)
    (h3 : x.notes = y.notes) :
    (processLoanIssueDecisionTree x).recommendedAction
      = (processLoanIssueDecisionTree y).recommendedAction
    ∧ (processLoanIssueDecisionTree x).nextSteps
      = (processLoanIssueDecisionTree y).nextSteps := by
  have ha : ∀ z : LoanIssueFormData,
      (processLoanIssueDecisionTree z).recommendedAction
        = (decisionBranches z.issueType (z.subIssue.getD "")
            (toLowerStr (z.notes.getD ""))).1 := fun z => rfl
  have hs : ∀ z : LoanIssueFormData,
      (processLoanIssueDecisionTree z).nextSteps
        = (decisionBranches z.issueType (z.subIssue.getD "")
            (toLowerStr (z.notes.getD ""))).2.2 := fun z => rfl
  rw [ha, ha, hs, hs, h1, h2, h3]
  exact ⟨rfl, rfl⟩

/-- Witness for C4: the same Pan-Issue report filed with two different
requested actions yields the same recommendation and steps. -/
theorem claim_C4_actionRequested_noninterference_witness :
    (processLoanIssueDecisionTree
        ⟨"Pan Issue", some "Mapping Error", "No Action (resolve as is)", some "n"⟩).recommendedAction
      = (processLoanIssueDecisionTree
        ⟨"Pan Issue", some "Mapping Error", "Reject Lead (full or entity-specific)", some "n"⟩).recommendedAction
    ∧ (processLoanIssueDecisionTree
        ⟨"Pan Issue", some "Mapping Error", "No Action (resolve as is)", some "n"⟩).nextSteps
      = (processLoanIssueDecisionTree
        ⟨"Pan Issue", some "Mapping Error", "Reject Lead (full or entity-specific)", some "n"⟩).nextSteps :=
  claim_C4_actionRequested_noninterference
    ⟨"Pan Issue", some "Mapping Error", "No Action (resolve as is)", some "n"⟩
    ⟨"Pan Issue", some "Mapping Error", "Reject Lead (full or entity-specific)", some "n"⟩
    rfl rfl rfl

/-- Claim C5: the returned reason ends with the override annotation for the
requested action exactly when the computed recommendation differs from the
requested action; when they agree the reason is exactly the branch's fixed
text. -/
theorem claim_C5_override_reason (fd : LoanIssueFormData) :
    (endsWithStr (processLoanIssueDecisionTree fd).reason
        (overrideSuffix fd.actionRequested) = true
      ↔ (processLoanIssueDecisionTree fd).recommendedAction ≠ fd.actionRequested)
    ∧ ((processLoanIssueDecisionTree fd).recommendedAction = fd.actionRequested →
        (processLoanIssueDecisionTree fd).reason
          = (decisionBranches fd.issueType (fd.subIssue.getD "")
              (toLowerStr (fd.notes.getD ""))).2.1) :=
  override_reason_spec
    (decisionBranches fd.issueType (fd.subIssue.getD "") (toLowerStr (fd.notes.getD "")))
    fd.actionRequested
    (branch_reason_last_dot fd.issueType (fd.subIssue.getD "") (toLowerStr (fd.notes.getD "")))

/-- Witness for C5 at a concrete input whose requested action matches the
computed one, so the reason is exactly the branch text. -/
theorem claim_C5_override_reason_witness :
    (processLoanIssueDecisionTree
      ⟨"Pan Issue", some "Mapping Error",
       "Resolve Mapping (e.g., provide full phone no)", none⟩).reason
      = (decisionBranches "Pan Issue" "Mapping Error" (toLowerStr "")).2.1 :=
  (claim_C5_override_reason
    ⟨"Pan Issue", some "Mapping Error",
     "Resolve Mapping (e.g., provide full phone no)", none⟩).2 (by decide)

/-- Counterexample to claim C6 as stated: the branch predicates are not
mutually exclusive over arbitrary strings — `"Pan Issue Swapping"`
satisfies both the `Pan Issue` and the `Swapping` predicate. -/
theorem claim_C6_counterexample :
    includesStr "Pan Issue Swapping" "Pan Issue" = true
    ∧ includesStr "Pan Issue Swapping" "Swapping" = true
    ∧ 2 ≤ (branchPreds "Pan Issue Swapping").count true := by
  decide

/-- Claim C6 (amended): the classifier is a total function whose branches
are tried in source order and whose result depends on `issueType` only
through the nine branch predicates (so the first matching branch fully
determines the result); over the ten enumerated dropdown options the
predicates are mutually exclusive (at most one holds), but over arbitrary
strings several predicates may hold simultaneously, in which case the
earlier branch wins. -/
theorem claim_C6_ordered_dispatch :
    (∀ it₁ it₂ si no, branchPreds it₁ = branchPreds it₂ →
       decisionBranches it₁ si no = decisionBranches it₂ si no)
    ∧ (∀ opt ∈ ISSUE_TYPE_OPTIONS, (branchPreds opt).count true ≤ 1) := by
  constructor
  · intro it₁ it₂ si no h
    simp only [branchPreds, List.cons.injEq, and_true] at h
    obtain ⟨h1, h2, h3, h4, h5, h6, h7, h8, h9⟩ := h
    unfold decisionBranches
    rw [h1, h2, h3, h4, h5, h6, h7, h8, h9]
  · decide

/-- Witness for C6: a string with extra prose around `Pan Issue` classifies
exactly like the bare keyword, and the first dropdown option satisfies at
most one predicate. -/
theorem claim_C6_ordered_dispatch_witness :
    decisionBranches "zz Pan Issue zz" "" "" = decisionBranches "Pan Issue" "" ""
    ∧ (branchPreds
        "Pan Issue (e.g., mapping error, verification failed, primary PAN available)").count true
      ≤ 1 :=
  ⟨claim_C6_ordered_dispatch.1 "zz Pan Issue zz" "Pan Issue" "" "" (by decide),
   claim_C6_ordered_dispatch.2
     "Pan Issue (e.g., mapping error, verification failed, primary PAN available)"
     (by decide)⟩

/-- Counterexample to claim C7 as stated: a Pan-Issue input whose requested
action (here `""`) differs from the computed recommendation gets the
override annotation appended, so its reason is not exactly the fixed
PAN-failure text. -/
theorem claim_C7_counterexample :
    includesStr "Pan Issue" "Pan Issue" = true
    ∧ (processLoanIssueDecisionTree
        ⟨"Pan Issue", some "Primary PAN Available", "", none⟩).recommendedAction
      = "Reject Lead (full or entity-specific)"
    ∧ (processLoanIssueDecisionTree
        ⟨"Pan Issue", some "Primary PAN Available", "", none⟩).reason
      ≠ "PAN verification or mapping failure detected. Common in data (e.g., primary PAN available)." := by
  decide

/-- Claim C7 (amended): for every input whose `issueType` matches `Pan
Issue`, the recommendation is `Reject Lead` when `subIssue` is `Primary PAN
Available` or the lowercased notes contain `primary`, and `Resolve Mapping`
otherwise; the next steps are the fixed two-element list, and the reason is
the fixed PAN-failure text with the override annotation appended exactly
when the requested action differs from the computed one. -/
theorem claim_C7_pan_issue_branch (fd : LoanIssueFormData)
    (h : includesStr fd.issueType "Pan Issue" = true) :
    ((fd.subIssue.getD "" == "Primary PAN Available"
        || includesStr (toLowerStr (fd.notes.getD "")) "primary") = true →
       (processLoanIssueDecisionTree fd).recommendedAction
         = "Reject Lead (full or entity-specific)")
    ∧ ((fd.subIssue.getD "" == "Primary PAN Available"
        || includesStr (toLowerStr (fd.notes.getD "")) "primary") = false →
       (processLoanIssueDecisionTree fd).recommendedAction
         = "Resolve Mapping (e.g., provide full phone no)")
    ∧ (processLoanIssueDecisionTree fd).nextSteps
        = ["Relogin with correct mobile no linked to PAN.",
           "API Call: Check PAN mapping in database (e.g., query for full phone no)."]
    ∧ (processLoanIssueDecisionTree fd).reason
        = (if fd.actionRequested ≠ (processLoanIssueDecisionTree fd).recommendedAction then
             "PAN verification or mapping failure detected. Common in data (e.g., primary PAN available)."
               ++ overrideSuffix fd.actionRequested
           else
             "PAN verification or mapping failure detected. Common in data (e.g., primary PAN available).") := by
  have hb : decisionBranches fd.issueType (fd.subIssue.getD "")
        (toLowerStr (fd.notes.getD ""))
      = ((if (fd.subIssue.getD "" == "Primary PAN Available"
              || includesStr (toLowerStr (fd.notes.getD "")) "primary") = true then
            "Reject Lead (full or entity-specific)"
          else
            "Resolve Mapping (e.g., provide full phone no)"),
         "PAN verification or mapping failure detected. Common in data (e.g., primary PAN available).",
         ["Relogin with correct mobile no linked to PAN.",
          "API Call: Check PAN mapping in database (e.g., query for full phone no)."]) := by
    unfold decisionBranches
    rw [if_pos h]
  have hact : (processLoanIssueDecisionTree fd).recommendedAction
      = (decisionBranches fd.issueType (fd.subIssue.getD "")
          (toLowerStr (fd.notes.getD ""))).1 := rfl
  have hsteps : (processLoanIssueDecisionTree fd).nextSteps
      = (decisionBranches fd.issueType (fd.subIssue.getD "")
          (toLowerStr (fd.notes.getD ""))).2.2 := rfl
  have hreason : (processLoanIssueDecisionTree fd).reason
      = (if fd.actionRequested
            ≠ (decisionBranches fd.issueType (fd.subIssue.getD "")
                (toLowerStr (fd.notes.getD ""))).1 then
           (decisionBranches fd.issueType (fd.subIssue.getD "")
             (toLowerStr (fd.notes.getD ""))).2.1
             ++ overrideSuffix fd.actionRequested
         else
           (decisionBranches fd.issueType (fd.subIssue.getD "")
             (toLowerStr (fd.notes.getD ""))).2.1) := rfl
  refine ⟨?_, ?_, ?_, ?_⟩
  · intro hc
    rw [hact, hb]
    simp [hc]
  · intro hc
    rw [hact, hb]
    simp [hc]
  · rw [hsteps, hb]
  · rw [hreason, hact, hb]

/-- Witness for C7 at a concrete Pan-Issue input with the primary-PAN
sub-issue and a matching requested action. -/
theorem claim_C7_pan_issue_branch_witness :
    (processLoanIssueDecisionTree
      ⟨"Pan Issue", some "Primary PAN Available",
       "Reject Lead (full or entity-specific)", none⟩).recommendedAction
      = "Reject Lead (full or entity-specific)" :=
  (claim_C7_pan_issue_branch
    ⟨"Pan Issue", some "Primary PAN Available",
     "Reject Lead (full or entity-specific)", none⟩ (by decide)).1 (by decide)

/-- Claim C10: the classifier always returns between one and two next
steps; in the `Wrong Details Updated by SM` branch the count is two exactly
when the lowercased notes contain `income`, and one otherwise. -/
theorem claim_C10_next_steps_shape (fd : LoanIssueFormData) :
    (processLoanIssueDecisionTree fd).nextSteps ≠ []
    ∧ (processLoanIssueDecisionTree fd).nextSteps.length ≤ 2
    ∧ ((includesStr fd.issueType "Pan Issue" = false
        ∧ includesStr fd.issueType "Swapping" = false
        ∧ includesStr fd.issueType "Wrong Details Updated by SM" = true) →
       (processLoanIssueDecisionTree fd).nextSteps.length
         = (if includesStr (toLowerStr (fd.notes.getD "")) "income" then 2 else 1)) := by
  have hsteps : (processLoanIssueDecisionTree fd).nextSteps
      = (decisionBranches fd.issueType (fd.subIssue.getD "")
          (toLowerStr (fd.notes.getD ""))).2.2 := rfl
  refine ⟨?_, ?_, ?_⟩
  · rw [hsteps]
    exact (branch_steps_bounds _ _ _).1
  · rw [hsteps]
    exact (branch_steps_bounds _ _ _).2
  · rintro ⟨h1, h2, h3⟩
    rw [hsteps]
    rcases Bool.eq_false_or_eq_true
        (includesStr (toLowerStr (fd.notes.getD "")) "income") with hi | hi <;>
      simp [decisionBranches, h1, h2, h3, hi]

/-- Witness for C10: an SM-error report whose notes mention income gets
exactly two steps. -/
theorem claim_C10_next_steps_shape_witness :
    (processLoanIssueDecisionTree
      ⟨"Wrong Details Updated by SM", none, "", some "Income wrong"⟩).nextSteps.length
      = (if includesStr (toLowerStr "Income wrong") "income" then 2 else 1) :=
  (claim_C10_next_steps_shape
    ⟨"Wrong Details Updated by SM", none, "", some "Income wrong"⟩).2.2 (by decide)

end IssueTracker
